import Mathlib

/-!
Verification of the textual-datum reader and stream-I/O layer
(`pycket/prims/input_output.py`) against its specification.

The Python source is shallowly embedded: input streams become `List Char`
(consumed from the front), Scheme values become the inductive `W`, tokens
become `Tok`, raised `SchemeException`s and failing `assert`s become the
`Except RErr` error monad, and the mutual recursion of the reader is made
total with an explicit fuel parameter (the fuel-exhausted outcome is kept
distinct from every genuine program outcome).

External host services (the RPython fixed-width integer parser, the
arbitrary-precision decimal parser, Python's float parser, the port
classes of `pycket/values.py` and the continuation machinery of
`pycket/cont.py`) are not part of the given source file; where a claim
depends on them they are modelled from the specification, as marked in
the corresponding doc comments.
-/

/-- The exact value of a parsed floating-point literal, kept in the
unreduced form the literal denotes: sign, the mantissa's digit value with
the point removed, the number of fractional digits, and the decimal
exponent. `FloatVal.toRat` below interprets it as the exact rational it
denotes. -/
structure FloatVal where
  neg : Bool
  mantNum : Nat
  fracLen : Nat
  exp : Int
deriving DecidableEq

/-- Parsed Scheme values, embedding the `values.W_Object` subclasses that the
reader constructs: fixnums, bignums, flonums (represented exactly by their
literal's components), strings, interned symbols (by name), booleans, pairs,
the empty list and the eof object. -/
inductive W where
  | fixnum (n : Int)
  | bignum (n : Int)
  | flonum (q : FloatVal)
  | str (s : String)
  | sym (s : String)
  | bool (b : Bool)
  | cons (car cdr : W)
  | wnull
  | eof
deriving DecidableEq

/-- Tokens produced by `read_token` (source lines 25-50): value-carrying
tokens (number/string/symbol/boolean literals), quote-family special tokens
(carrying the raw marker text and the expansion symbol's name), and the
delimiter tokens, which retain the literal bracket text. -/
inductive Tok where
  | value (v : W)
  | special (s : String) (con : String)
  | lparen (s : String)
  | rparen (s : String)
  | dot (s : String)
deriving DecidableEq

/-- Error outcomes of the embedded reader: a raised `SchemeException` with
its message, a failing Python `assert` (as in `check_matches`), running out
of fuel, and the non-terminating loop `read_string` enters at end of input. -/
inductive RErr where
  | schemeErr (msg : String)
  | assertFail
  | outOfFuel
  | diverge
deriving DecidableEq

/-- `idchar` (source lines 52-55): alphanumeric or one of `! ? . - _ :`. -/
def idchar (c : Char) : Bool :=
  c.isAlphanum || (c = '!' || c = '?' || c = '.' || c = '-' || c = '_' || c = ':')

/-- Leading sign of a numeric text: `-` or `+` consumed, remainder returned. -/
def splitSign : List Char → Bool × List Char
  | '-' :: r => (true, r)
  | '+' :: r => (false, r)
  | l => (false, l)

/-- Value of a list of decimal digit characters. -/
def digitsVal (l : List Char) : Nat :=
  l.foldl (fun a c => a * 10 + (c.toNat - 48)) 0

/-- Nonempty and consisting only of decimal digits. -/
def isDigits (l : List Char) : Bool :=
  !l.isEmpty && l.all Char.isDigit

/-- Smallest value of the host's fixed-width (64-bit signed) integer. -/
def INT_MIN : Int := -(2 ^ 63)

/-- Largest value of the host's fixed-width (64-bit signed) integer. -/
def INT_MAX : Int := 2 ^ 63 - 1

/-- Outcome of the fixed-width integer parse: success, numeric overflow, or
a syntax failure. -/
inductive IntParse where
  | ok (n : Int)
  | overflow
  | synErr
deriving DecidableEq

/-- Modelled from the spec: the host fixed-width integer parser
(`rpython.rlib.rarithmetic.string_to_int`, an external collaborator not in
src). Per spec 4.1 step 8 it yields a fixed integer on success, fails with
numeric overflow when the decimal text denotes a value outside the host's
fixed-width integer bound (spec 8: overflow exactly at that bound), and
fails for non-integer-syntax reasons otherwise. -/
def string_to_int (s : String) : IntParse :=
  let (neg, ds) := splitSign s.toList
  if isDigits ds then
    let v : Int := (if neg then -1 else 1) * (digitsVal ds : Int)
    if v < INT_MIN ∨ INT_MAX < v then .overflow else .ok v
  else .synErr

/-- Modelled from the spec: the arbitrary-precision decimal parser
(`rpython.rlib.rbigint.fromdecimalstr`, external, not in src): the signed
integer value of a decimal numeral. It is only reached on texts whose
fixed-width parse overflowed, hence on valid signed decimal numerals. -/
def bigFromDecimal (s : String) : Int :=
  let (neg, ds) := splitSign s.toList
  (if neg then -1 else 1) * (digitsVal ds : Int)

/-- Split a mantissa at its decimal point: integer part and fractional part;
`none` when more than one point occurs. -/
def splitMantissa (l : List Char) : Option (List Char × List Char) :=
  let ip := l.takeWhile (· ≠ '.')
  match l.dropWhile (· ≠ '.') with
  | [] => some (ip, [])
  | _ :: frac => if frac.contains '.' then none else some (ip, frac)

/-- Signed decimal exponent of a float literal. -/
def parseExp (l : List Char) : Option Int :=
  let (neg, ds) := splitSign l
  if isDigits ds then some ((if neg then -1 else 1) * (digitsVal ds : Int)) else none

/-- Ten to a signed power, as an exact rational. -/
def tenPow (e : Int) : Rat :=
  if 0 ≤ e then ((10 : Rat) ^ e.toNat) else 1 / ((10 : Rat) ^ (-e).toNat)

/-- The exact rational a parsed float literal denotes. -/
def FloatVal.toRat (f : FloatVal) : Rat :=
  (if f.neg then -1 else 1) * ((f.mantNum : Rat) / (10 : Rat) ^ f.fracLen) * tenPow f.exp

/-- Modelled from the spec: the host floating-point literal parser (Python's
`float`, external, not in src), restricted per spec 4.1 step 8 to
floating-point literals: optional sign, decimal digits with at most one
point and at least one digit, optional `e`/`E` exponent with optional sign.
The parsed value is kept exactly, by its components. -/
def pyFloat (s : String) : Option FloatVal :=
  let (neg, body) := splitSign s.toList
  let mant := body.takeWhile (fun c => c ≠ 'e' ∧ c ≠ 'E')
  let expVal? : Option Int :=
    match body.dropWhile (fun c => c ≠ 'e' ∧ c ≠ 'E') with
    | [] => some 0
    | _ :: ex => parseExp ex
  match expVal? with
  | none => none
  | some e =>
    match splitMantissa mant with
    | none => none
    | some (ip, fp) =>
      if isDigits (ip ++ fp) then
        some ⟨neg, digitsVal (ip ++ fp), fp.length, e⟩
      else none

/-- The classification chain of `read_number_or_id` (source lines 69-79):
try the fixed-width integer parse; on overflow reparse the same text as an
arbitrary-precision integer; on a syntax failure try the float parse; when
that also fails the text becomes an interned symbol. -/
def classify (got : String) : Tok :=
  match string_to_int got with
  | .ok n => .value (.fixnum n)
  | .overflow => .value (.bignum (bigFromDecimal got))
  | .synErr =>
    match pyFloat got with
    | some q => .value (.flonum q)
    | none => .value (.sym got)

/-- `read_number_or_id` (source lines 57-79): greedily consume further
identifier characters after the initial one (the source's peek-then-read
loop is exactly a take-while on the stream), then classify the accumulated
text. -/
def read_number_or_id (init : Char) (s : List Char) : Tok × List Char :=
  let more := s.takeWhile idchar
  let rest := s.dropWhile idchar
  (classify (String.mk (init :: more)), rest)

/-- The string-literal scan of `read_string` (source lines 83-99): `"` ends
the literal, `\` begins an escape of which only `\"`, `\\`, `\n`, `\t` are
recognized (any other escape raises), other characters are kept verbatim.
At end of input the source's loop reads the empty string and repeats without
consuming, i.e. it does not terminate; that outcome is embedded as
`RErr.diverge`. -/
def read_string_loop : List Char → List Char → Except RErr (W × List Char)
  | [], _ => .error .diverge
  | '"' :: rest, buf => .ok (.str (String.mk buf.reverse), rest)
  | '\\' :: [], _ => .error (.schemeErr "read: bad escape character in string: ")
  | '\\' :: n :: rest, buf =>
    if n = '"' ∨ n = '\\' then read_string_loop rest (n :: buf)
    else if n = 'n' then read_string_loop rest ('\n' :: buf)
    else if n = 't' then read_string_loop rest ('\t' :: buf)
    else .error (.schemeErr ("read: bad escape character in string: " ++ String.mk [n]))
  | c :: rest, buf => read_string_loop rest (c :: buf)

/-- `f.readline()` inside `read_token`'s comment rule: discard through and
including the next newline. -/
def dropLine (l : List Char) : List Char :=
  (l.dropWhile (· ≠ '\n')).drop 1

/-- `read_token` (source lines 101-140), with fuel for the comment and
whitespace skipping loop. The branches appear in the source's order; in
particular `.` is tested before `idchar`, so a leading dot always becomes a
`DotToken`. At end of input `f.read(1)` yields the empty string, which falls
through every branch to `bad token in read:` with an empty character. -/
def read_token : Nat → List Char → Except RErr (Tok × List Char)
  | 0, _ => .error .outOfFuel
  | fuel + 1, s =>
    match s with
    | [] => .error (.schemeErr "bad token in read: ")
    | c :: rest =>
      if c = ';' then read_token fuel (dropLine rest)
      else if c = ' ' ∨ c = '\n' ∨ c = '\t' then read_token fuel rest
      else if c = '(' ∨ c = '[' ∨ c = '{' then .ok (.lparen (String.mk [c]), rest)
      else if c = ')' ∨ c = ']' ∨ c = '}' then .ok (.rparen (String.mk [c]), rest)
      else if c = '"' then
        match read_string_loop rest [] with
        | .ok (v, rest') => .ok (.value v, rest')
        | .error e => .error e
      else if c = '.' then .ok (.dot ".", rest)
      else if c = '\'' then .ok (.special "'" "quote", rest)
      else if c = '`' then .ok (.special "`" "quasiquote", rest)
      else if c = ',' then
        match rest with
        | '@' :: rest' => .ok (.special ",@" "unquote-splicing", rest')
        | _ => .ok (.special "," "unquote", rest)
      else if idchar c then
        .ok (read_number_or_id c rest)
      else if c = '#' then
        match rest with
        | [] => .error (.schemeErr "bad token in read: ")
        | c2 :: rest' =>
          if c2 = 't' then .ok (.value (.bool true), rest')
          else if c2 = 'f' then .ok (.value (.bool false), rest')
          else if c2 = '(' ∨ c2 = '[' ∨ c2 = '{' then .ok (.lparen (String.mk ['#', c2]), rest')
          else .error (.schemeErr ("bad token in read: " ++ String.mk [c2]))
      else .error (.schemeErr ("bad token in read: " ++ String.mk [c]))

/-- `SpecialToken.finish` (source lines 36-37): wrap a datum in a
two-element list headed by the expansion symbol. -/
def finishSpecial (con : String) (val : W) : W :=
  .cons (.sym con) (.cons val .wnull)

/-- `reverse` (source lines 163-168): reverse a proper-list chain onto an
accumulator, which becomes the final cdr. -/
def wreverse (w : W) (acc : W) : W :=
  match w with
  | .cons a d => wreverse d (.cons a acc)
  | _ => acc

/-- `check_matches` (source lines 170-176) as the conjunction of its three
assertions: each of the plain openers `(`, `[`, `\x7b` requires its matching
closer; any other opener text (notably the two-character vector openers such
as `#(`) triggers none of the assertions. -/
def check_matches (s1 s2 : String) : Bool :=
  (if s1 = "(" then s2 = ")" else true) &&
  (if s1 = "[" then s2 = "]" else true) &&
  (if s1 = "\x7b" then s2 = "\x7d" else true)

mutual

/-- `read_stream` (source lines 150-161): read one token; a special token
recursively reads a nested datum and wraps it; an opening delimiter
delegates to `read_list`; any other delimiter raises `read: unexpected`;
a value token returns its payload. -/
def read_stream : Nat → List Char → Except RErr (W × List Char)
  | 0, _ => .error .outOfFuel
  | fuel + 1, s =>
    match read_token fuel s with
    | .error e => .error e
    | .ok (.special _ con, rest) =>
      match read_stream fuel rest with
      | .error e => .error e
      | .ok (v, rest') => .ok (finishSpecial con v, rest')
    | .ok (.lparen str, rest) => read_list fuel rest .wnull str
    | .ok (.rparen str, _) => .error (.schemeErr ("read: unexpected " ++ str))
    | .ok (.dot str, _) => .error (.schemeErr ("read: unexpected " ++ str))
    | .ok (.value v, rest) => .ok (v, rest)

/-- `read_list` (source lines 178-199): on a dot token read exactly one more
datum as the improper tail and require the following token to be a closing
delimiter (else `read: illegal use of` dot); on a closing delimiter check
the brackets and reverse the accumulator; otherwise accumulate the next
element (nested list, quote expansion, or plain value) and continue. -/
def read_list : Nat → List Char → W → String → Except RErr (W × List Char)
  | 0, _, _, _ => .error .outOfFuel
  | fuel + 1, s, so_far, endStr =>
    match read_token fuel s with
    | .error e => .error e
    | .ok (.dot _, rest) =>
      match read_stream fuel rest with
      | .error e => .error e
      | .ok (last, s1) =>
        match read_token fuel s1 with
        | .error e => .error e
        | .ok (.rparen cs, s2) =>
          if check_matches endStr cs then .ok (wreverse so_far last, s2)
          else .error .assertFail
        | .ok _ => .error (.schemeErr "read: illegal use of `.`")
    | .ok (.rparen cs, rest) =>
      if check_matches endStr cs then .ok (wreverse so_far .wnull, rest)
      else .error .assertFail
    | .ok (.lparen cs, rest) =>
      match read_list fuel rest .wnull cs with
      | .error e => .error e
      | .ok (v, s1) => read_list fuel s1 (.cons v so_far) endStr
    | .ok (.special _ con, rest) =>
      match read_stream fuel rest with
      | .error e => .error e
      | .ok (arg, s1) => read_list fuel s1 (.cons (finishSpecial con arg) so_far) endStr
    | .ok (.value v, rest) => read_list fuel rest (.cons v so_far) endStr

end

/-- The dynamic parameter context seen by a primitive through its
continuation: the current values of the `current-input-port` and
`current-output-port` parameters (`current_in_param` / `current_out_param`,
source lines 735-739), each modelled by the contents of its port's stream. -/
structure ParamCtx where
  current_in : List Char
  current_out : List Char
deriving DecidableEq

/-- The `read` primitive (source lines 142-148): when no port argument is
supplied the port is fetched with `current_out_param.get(cont)`, then
`read_stream` runs on the chosen port. -/
def read_prim (port : Option (List Char)) (ctx : ParamCtx) (fuel : Nat) :
    Except RErr (W × List Char) :=
  let p := match port with
           | none => ctx.current_out
           | some q => q
  read_stream fuel p

/-- Result of `do_read_line` (source lines 209-226): a byte string, a
character string, or the eof object. -/
inductive LineRes where
  | eofL
  | bytesL (s : List Char)
  | strL (s : List Char)
deriving DecidableEq

/-- `do_read_line` (source lines 209-226) as a function of the string the
port's `readline` returned: when it is empty (`stop = len(line) - 1 < 0`)
the eof object results; otherwise a single trailing newline is chomped and
the line is wrapped as bytes or as a string according to `as_bytes`. -/
def do_read_line (line : List Char) (as_bytes : Bool) : LineRes :=
  if line.isEmpty then .eofL
  else
    let chomped := if line.getLast? = some '\n' then line.dropLast else line
    if as_bytes then .bytesL chomped else .strL chomped

/-- Modelled from the spec: a byte-oriented input port over its stream (the
`W_InputPort` classes live in `pycket/values.py`, not in src). Spec 4.3: a
Port carries a position cursor into its underlying byte stream. -/
structure InPort where
  contents : List Nat
  pos : Nat
deriving DecidableEq

/-- Modelled from the spec: `peek() -> next byte/char without consuming`
(spec 4.3); the result is the next byte, or empty at end of input. -/
def port_peek (p : InPort) : List Nat :=
  (p.contents.drop p.pos).take 1

/-- Modelled from the spec: `read(n) -> bytes actually available (0..n,
short reads allowed)` (spec 4.3), advancing the position by the bytes
actually read. -/
def port_read (n : Nat) (p : InPort) : List Nat × InPort :=
  let taken := (p.contents.drop p.pos).take n
  (taken, { p with pos := p.pos + taken.length })

/-- Modelled from the spec: `tell()`, the position cursor (spec 4.3). -/
def port_tell (p : InPort) : Nat :=
  p.pos

/-- Modelled from the spec: `runicode.utf8_code_length` (external, not in
src), the standard UTF-8 sequence length determined by the lead byte
(spec 4.3): 1 for `0x00`-`0x7F`, 2/3/4 for the standard multi-byte
lead-byte ranges, and 0 for a byte that cannot lead a sequence. -/
def utf8_code_length (i : Nat) : Nat :=
  if i ≤ 0x7F then 1
  else if i ≤ 0xC1 then 0
  else if i ≤ 0xDF then 2
  else if i ≤ 0xEF then 3
  else if i ≤ 0xF4 then 4
  else 0

/-- A UTF-8 continuation byte. -/
def isContByte (b : Nat) : Bool :=
  0x80 ≤ b && b ≤ 0xBF

/-- Modelled from the spec: decoding one UTF-8 sequence to one code point
(`c.decode("utf-8")` on a `needed`-byte string; spec 4.3: decodes to one
code point, failure to decode is a fatal read error). -/
def utf8_decode (bs : List Nat) : Option Nat :=
  match bs with
  | [b] => if b ≤ 0x7F then some b else none
  | [b1, b2] =>
    if 0xC2 ≤ b1 && b1 ≤ 0xDF && isContByte b2 then
      some ((b1 - 0xC0) * 0x40 + (b2 - 0x80))
    else none
  | [b1, b2, b3] =>
    if 0xE0 ≤ b1 && b1 ≤ 0xEF && isContByte b2 && isContByte b3 then
      some ((b1 - 0xE0) * 0x1000 + (b2 - 0x80) * 0x40 + (b3 - 0x80))
    else none
  | [b1, b2, b3, b4] =>
    if 0xF0 ≤ b1 && b1 ≤ 0xF4 && isContByte b2 && isContByte b3 && isContByte b4 then
      some ((b1 - 0xF0) * 0x40000 + (b2 - 0x80) * 0x1000 + (b3 - 0x80) * 0x40 + (b4 - 0x80))
    else none
  | _ => none

/-- Result of `do_read_one`: the eof object, the fixnum of the byte read
(`as_bytes`), or the character of the decoded code point. -/
inductive ReadOneRes where
  | eofR
  | byteR (n : Nat)
  | charR (cp : Nat)
deriving DecidableEq

/-- Outcome of `do_read_one`: a value, or the fatal read error a failing
UTF-8 decode raises (spec 4.3); the port state after the operation is
carried in both cases, since the reads happen before the decode. -/
inductive ReadOneOut where
  | val (r : ReadOneRes)
  | fatal
deriving DecidableEq

/-- `do_read_one` (source lines 241-263): peek or read one byte; an empty
result is the eof object; under `as_bytes` the byte's value is returned
directly. Otherwise the character branch determines the sequence length
from the lead byte and then executes `c += w_port.read(needed - 1)` — a
consuming read even when `peek` is set, in which case it starts at the
still-unconsumed lead byte — and decodes the assembled bytes; a lead byte
of length 0 cannot decode and is a fatal read error as well. -/
def do_read_one (as_bytes peek : Bool) (p : InPort) : ReadOneOut × InPort :=
  let (c, p1) := if peek then (port_peek p, p) else port_read 1 p
  match c with
  | [] => (.val .eofR, p1)
  | i :: _ =>
    if as_bytes then (.val (.byteR i), p1)
    else
      match utf8_code_length i with
      | 0 => (.fatal, p1)
      | m + 1 =>
        let (more, p2) := port_read m p1
        match utf8_decode (c ++ more) with
        | some cp => (.val (.charR cp), p2)
        | none => (.fatal, p2)

/-- `do_peek` with `skip = 0` (source lines 274-276): exactly
`do_read_one` with peeking on. -/
def do_peek0 (as_bytes : Bool) (p : InPort) : ReadOneOut × InPort :=
  do_read_one as_bytes true p

/-- Outcome of running the user callback of a scoped file operation: a
normal return of values, or a propagating error/exception. -/
inductive CallOutcome where
  | normal (v : Nat)
  | raised (msg : String)
deriving DecidableEq

/-- A port as a close-counting probe (spec 8's probe that counts close
invocations): the `closed` flag together with how many times `close` ran. -/
structure ProbePort where
  closed : Bool
  closeCount : Nat
deriving DecidableEq

/-- `port.close()` as seen by the probe. -/
def port_close (p : ProbePort) : ProbePort :=
  { closed := true, closeCount := p.closeCount + 1 }

/-- A freshly opened port: not closed, zero close invocations. -/
def freshPort : ProbePort :=
  { closed := false, closeCount := 0 }

/-- `close_cont` (source lines 334-338): the continuation closes the port
and passes the received values on unchanged. -/
def close_cont_apply (port : ProbePort) (vals : Nat) : ProbePort × Nat :=
  (port_close port, vals)

/-- Modelled from the spec: the continuation machinery (`pycket/cont.py`,
not in src) applies a continuation only when the callback returns values
normally; a raised `SchemeException` propagates past it (spec 9: the close
"fires only when the happy-path continuation is invoked"). This is the
shared shape of `call_with_input_file`, `call_with_output_file`,
`with_input_from_file` and `with_output_to_file` (source lines 348-399):
open a fresh port, call the callback with `close_cont` installed as its
continuation. -/
def call_with_file (callback : ProbePort → CallOutcome) : CallOutcome × ProbePort :=
  let port := freshPort
  match callback port with
  | .normal v =>
    let (port', v') := close_cont_apply port v
    (.normal v', port')
  | .raised m => (.raised m, port)

/-- The existence-disposition symbols recognized by the file-open
operations (source lines 358-363). -/
inductive ModeSym where
  | errorSym
  | appendSym
  | updateSym
  | replaceSym
  | truncateSym
  | truncateReplaceSym
deriving DecidableEq

/-- The printed name of an existence-disposition symbol. -/
def modeSymName : ModeSym → String
  | .errorSym => "error"
  | .appendSym => "append"
  | .updateSym => "update"
  | .replaceSym => "replace"
  | .truncateSym => "truncate"
  | .truncateReplaceSym => "truncate/replace"

/-- The text/binary mode argument of the file-open operations. -/
inductive FileKind where
  | text
  | binary
deriving DecidableEq

/-- `open_output_file` (source lines 309-314): the underlying open-mode
string is `w`/`wb` from the text/binary argument alone; the
existence-disposition argument is never examined. -/
def open_output_file (mode : FileKind) (_exi : ModeSym) : Except String String :=
  .ok (if mode = .text then "w" else "wb")

/-- The open-mode computation of `call_with_output_file` (source lines
370-380): `append` contributes `a`, `truncate` contributes `w`, any other
disposition raises `modes not yet supported`; a non-text mode then appends
`b`. -/
def call_with_output_file_mode (mode : FileKind) (exi : ModeSym) : Except String String :=
  match (match exi with
         | .appendSym => some "a"
         | .truncateSym => some "w"
         | _ => none) with
  | none => .error ("modes not yet supported: " ++ modeSymName exi)
  | some m => .ok (if mode = .text then m else m ++ "b")

/-- Errors of the two format engines: the host-level `IndexError` that
`format`'s unchecked `v[vindex]` raises (not a `SchemeException`, hence not
catchable at the language level), and raised `SchemeException`s with their
message. -/
inductive FmtErr where
  | indexError
  | schemeErr (msg : String)
deriving DecidableEq

/-- Modelled from the spec: the textual rendering of a value
(the `tostring` methods live on the value classes in `pycket/values.py`,
not in src); the format engines only splice the rendering in. -/
def tostring : W → String
  | .fixnum n => toString n
  | .bignum n => toString n
  | .flonum q => toString q.toRat.num ++ "/" ++ toString q.toRat.den
  | .str s => s
  | .sym s => s
  | .bool b => if b then "#t" else "#f"
  | .cons a d => "(" ++ tostring a ++ " . " ++ tostring d ++ ")"
  | .wnull => "()"
  | .eof => "#<eof>"

/-- The value-consuming control sequences of `format_dict`
(source lines 455-466). -/
def fmtValChars : List Char :=
  ['a', 'A', 'e', 'E', 's', 'S', 'v', 'V']

/-- `format` (source lines 469-487): scan the template left to right; `~n`
and `~%` insert a newline consuming no value; the other recognized
sequences consume the next unconsumed value and insert its rendering, and
when the values are exhausted the unchecked `v[vindex]` raises a host
`IndexError`; a tilde not starting a recognized sequence is literal text
(the regex scan resumes at the following character). Output is the emitted
character list. -/
def format_scan : List Char → List W → Except FmtErr (List Char)
  | [], _ => .ok []
  | '~' :: c :: rest, vs =>
    if c = 'n' ∨ c = '%' then
      match format_scan rest vs with
      | .ok out => .ok ('\n' :: out)
      | .error e => .error e
    else if c ∈ fmtValChars then
      match vs with
      | [] => .error .indexError
      | v :: vs' =>
        match format_scan rest vs' with
        | .ok out => .ok ((tostring v).toList ++ out)
        | .error e => .error e
    else
      match format_scan (c :: rest) vs with
      | .ok out => .ok ('~' :: out)
      | .error e => .error e
  | c :: rest, vs =>
    match format_scan rest vs with
    | .ok out => .ok (c :: out)
    | .error e => .error e

/-- The value-class directive characters accepted by `printf`
(source line 506). -/
def printfValChars : List Char :=
  ['a', 'A', 's', 'S', 'v', 'V', 'e', 'E']

/-- `printf` (source lines 489-520): its own scan of the template. A tilde
at the end of the template is `bad format string`; a value-class directive
with the values exhausted raises the catchable
`not enough arguments for format string`; `~n` writes a newline; any other
character after a tilde (including `%`) raises
`unexpected format character`; other characters are written through.
Output is what is written to file descriptor 1. -/
def printf_loop : List Char → List W → Except FmtErr (List Char)
  | [], _ => .ok []
  | '~' :: rest, vs =>
    match rest with
    | [] => .error (.schemeErr "bad format string")
    | s :: rest' =>
      if s ∈ printfValChars then
        match vs with
        | [] => .error (.schemeErr "not enough arguments for format string")
        | v :: vs' =>
          match printf_loop rest' vs' with
          | .ok out => .ok ((tostring v).toList ++ out)
          | .error e => .error e
      else if s = 'n' then
        match printf_loop rest' vs with
        | .ok out => .ok ('\n' :: out)
        | .error e => .error e
      else .error (.schemeErr "unexpected format character")
  | c :: rest, vs =>
    match printf_loop rest vs with
    | .ok out => .ok (c :: out)
    | .error e => .error e

/-- C1: the claim says `read` with no port argument reads from the current
value of the current-input-port Parameter. The code does not: `read` fetches
its default port with `current_out_param.get(cont)` (source line 146), the
current-output-port Parameter. Evaluated at a context whose current input
port holds the text `1` and whose current output port holds the text `2`,
the datum produced is the fixnum 2 — it comes from the output-port
Parameter's stream, while reading the current input port would give 1. -/
theorem c1_read_default_port_is_current_out :
    (∀ ctx fuel, read_prim none ctx fuel = read_stream fuel ctx.current_out)
    ∧ read_prim none ⟨"1".toList, "2".toList⟩ 10 = .ok (.fixnum 2, [])
    ∧ read_stream 10 ("1".toList) = .ok (.fixnum 1, [])
    ∧ "1".toList ≠ "2".toList := by
  exact ⟨fun ctx fuel => rfl, rfl, rfl, by decide⟩

/-- C2: the claim says the scoped file operations close the port they
opened exactly once on every exit path. The code installs `close_cont` as a
continuation of the callback, and a continuation runs only when the
callback returns normally: when the callback raises, the port is never
closed (close count 0, `closed` still false); on a normal return it is
closed exactly once. -/
theorem c2_close_count_by_exit_path :
    (call_with_file (fun _ => .raised "boom")).2.closeCount = 0
    ∧ (call_with_file (fun _ => .raised "boom")).2.closed = false
    ∧ (call_with_file (fun _ => .raised "boom")).1 = .raised "boom"
    ∧ (call_with_file (fun _ => .normal 7)).2.closeCount = 1
    ∧ (call_with_file (fun _ => .normal 7)).2.closed = true := by
  exact ⟨rfl, rfl, rfl, rfl, rfl⟩

/-- C7: the claim says every input whose opener is closed by a closer of a
different bracket kind reaches the failing bracket check. For the plain
openers this holds: `(1 2]` hits the failing assertion in `check_matches`
and no datum is returned. But for the vector-style openers the opener text
is two characters (for example `#(`), which triggers none of the three
assertions, so `#(1 2]` is accepted and returns the list `(1 2)`. -/
theorem c7_bracket_mismatch_behavior :
    read_stream 20 "(1 2]".toList = .error .assertFail
    ∧ read_stream 20 "#(1 2]".toList = .ok (.cons (.fixnum 1) (.cons (.fixnum 2) .wnull), [])
    ∧ check_matches "(" "]" = false
    ∧ check_matches "#(" "]" = true := by
  exact ⟨rfl, rfl, rfl, rfl⟩

/-- C9: when the tokenizer's next significant character is `.` it returns a
Dot token immediately, leaving every following character unconsumed — so
`.5` tokenizes as a Dot followed by `5` and is never classified as a number
or symbol — while `.` is an identifier character, so a non-leading dot as
in `1.5` is consumed by the number-or-identifier scan, which classifies
`1.5` as the float 3/2. -/
theorem c9_leading_dot_token :
    (∀ fuel rest, read_token (fuel + 1) ('.' :: rest) = .ok (.dot ".", rest))
    ∧ idchar '.' = true
    ∧ read_token 5 ".5".toList = .ok (.dot ".", ['5'])
    ∧ read_token 5 "1.5".toList = .ok (.value (.flonum ⟨false, 15, 1, 0⟩), [])
    ∧ read_number_or_id '1' (".5".toList) = (.value (.flonum ⟨false, 15, 1, 0⟩), [])
    ∧ FloatVal.toRat ⟨false, 15, 1, 0⟩ = (3 : Rat) / 2 := by
  refine ⟨fun fuel rest => ?_, rfl, rfl, rfl, rfl, ?_⟩
  · simp [read_token]
  · norm_num [FloatVal.toRat, tenPow]

/-- C4 counterexample: the claim says every file-open operation taking an
existence-disposition symbol fails with `modes not yet supported` for the
dispositions other than `append` and `truncate`. But `open_output_file`
never examines its disposition argument: with disposition `replace` (and
even with the default `error`) it succeeds, producing the mode `w`/`wb`
from the text/binary argument alone. -/
theorem c4_open_output_file_ignores_disposition :
    open_output_file .binary .replaceSym = .ok "wb"
    ∧ open_output_file .text .errorSym = .ok "w" := by
  exact ⟨rfl, rfl⟩

/-- The amended C4 behavior, stated from the amended claim's words: the
first component is what `open-output-file` produces (always `w`/`wb`,
disposition ignored), the second what `call-with-output-file` produces
(`a`/`ab` for `append`, `w`/`wb` for `truncate`, the
`modes not yet supported` failure for every other disposition). -/
def amended_output_modes (mode : FileKind) (exi : ModeSym) :
    Except String String × Except String String :=
  (.ok (if mode = .text then "w" else "wb"),
   match exi with
   | .appendSym => .ok (if mode = .text then "a" else "ab")
   | .truncateSym => .ok (if mode = .text then "w" else "wb")
   | e => .error ("modes not yet supported: " ++ modeSymName e))

/-- C4 (amended): only `call-with-output-file` maps `append` and `truncate`
to underlying open modes and fails with `modes not yet supported: <symbol>`
on every other disposition; `open-output-file` ignores the disposition
symbol entirely and always opens with `w`/`wb`. -/
theorem c4_amended_mode_mapping :
    ∀ (k : FileKind) (e : ModeSym),
      (open_output_file k e, call_with_output_file_mode k e) = amended_output_modes k e := by
  intro k e
  cases k <;> cases e <;> rfl

/-- C3: the tokenizer's four-way classification of accumulated
identifier/number text: a fixed-width integer parse first (`123` gives the
fixnum 123, and the parse succeeds up to exactly the 64-bit bound); on
numeric overflow the same decimal text is reparsed as an
arbitrary-precision integer (a 20-digit all-nines numeral gives the bignum
equal to it, and the first value past the bound already does); on an
integer-syntax failure a float parse is attempted (`1.5` gives the float
denoting 3/2); when that fails too the text becomes a symbol (`abc`,
`12a`). -/
theorem c3_number_or_id_classification :
    (∀ s n, string_to_int s = .ok n → classify s = .value (.fixnum n))
    ∧ (∀ s, string_to_int s = .overflow → classify s = .value (.bignum (bigFromDecimal s)))
    ∧ (∀ s q, string_to_int s = .synErr → pyFloat s = some q → classify s = .value (.flonum q))
    ∧ (∀ s, string_to_int s = .synErr → pyFloat s = none → classify s = .value (.sym s))
    ∧ classify "123" = .value (.fixnum 123)
    ∧ classify "99999999999999999999" = .value (.bignum 99999999999999999999)
    ∧ classify "1.5" = .value (.flonum ⟨false, 15, 1, 0⟩)
    ∧ FloatVal.toRat ⟨false, 15, 1, 0⟩ = (3 : Rat) / 2
    ∧ classify "abc" = .value (.sym "abc")
    ∧ classify "12a" = .value (.sym "12a")
    ∧ classify "9223372036854775807" = .value (.fixnum 9223372036854775807)
    ∧ classify "9223372036854775808" = .value (.bignum 9223372036854775808)
    ∧ read_number_or_id '1' ("23".toList) = (.value (.fixnum 123), []) := by
  refine ⟨?_, ?_, ?_, ?_, rfl, rfl, rfl, ?_, rfl, rfl, rfl, rfl, rfl⟩
  · intro s n h; simp only [classify, h]
  · intro s h; simp only [classify, h]
  · intro s q h1 h2; simp only [classify, h1, h2]
  · intro s h1 h2; simp only [classify, h1, h2]
  · norm_num [FloatVal.toRat, tenPow]

/-- Witness for C3's hypotheses: on the concrete text `7` the fixed-width
parse succeeds with 7, so the classification yields the fixnum 7. -/
theorem c3_number_or_id_classification_witness :
    classify "7" = .value (.fixnum 7) :=
  c3_number_or_id_classification.1 "7" 7 (by decide)

/-- C10: `do_read_line` returns the eof object exactly when the underlying
`readline` yielded the empty string; otherwise it strips a single trailing
newline when present (`read-bytes-line` differs only in wrapping the result
as bytes), so a line consisting only of a newline yields the empty string
and an unterminated final line is returned unchanged. -/
theorem c10_read_line_eof_and_chomp :
    (∀ line b, do_read_line line b = .eofL ↔ line = [])
    ∧ (∀ line, do_read_line (line ++ ['\n']) false = .strL line)
    ∧ (∀ line, do_read_line (line ++ ['\n']) true = .bytesL line)
    ∧ (∀ line b, line.getLast? ≠ some '\n' → line ≠ [] →
        do_read_line line b = (if b then .bytesL line else .strL line))
    ∧ do_read_line ['\n'] false = .strL []
    ∧ do_read_line ['a', 'b', 'c'] false = .strL ['a', 'b', 'c']
    ∧ do_read_line ['a', '\n', '\n'] false = .strL ['a', '\n'] := by
  refine ⟨?_, ?_, ?_, ?_, rfl, rfl, rfl⟩
  · intro line b
    cases line with
    | nil => simp [do_read_line]
    | cons c cs =>
      simp only [do_read_line, List.isEmpty_cons, Bool.false_eq_true, if_false]
      split <;> simp
  · intro line
    have hne : (line ++ ['\n']).isEmpty = false := by
      simp [List.isEmpty_iff]
    simp [do_read_line, hne, List.getLast?_concat, List.dropLast_concat]
  · intro line
    have hne : (line ++ ['\n']).isEmpty = false := by
      simp [List.isEmpty_iff]
    simp [do_read_line, hne, List.getLast?_concat, List.dropLast_concat]
  · intro line b h1 h2
    have hne : line.isEmpty = false := by
      simp [List.isEmpty_iff, h2]
    simp [do_read_line, hne, h1]

/-- Witness for C10's hypotheses: the concrete unterminated line `a` is
returned unchanged. -/
theorem c10_read_line_eof_and_chomp_witness :
    do_read_line ['a'] false = (if false then LineRes.bytesL ['a'] else LineRes.strL ['a']) :=
  c10_read_line_eof_and_chomp.2.2.2.1 ['a'] false (by decide) (by decide)

/-- C8: the claim says peeking twice returns the same character at every
port and position, with a subsequent consuming read returning it and
advancing by one unit. At the byte level this holds: peeking never changes
the port (proved for every port), and it also holds for `peek-char` at a
single-byte position. But the character branch of `do_read_one` executes
the consuming `c += w_port.read(needed - 1)` even when peeking: at the
two-byte UTF-8 sequence `0xC3 0xA9` the read starts at the still-unconsumed
lead byte, so `peek-char` consumes one byte and then fails to decode
`[0xC3, 0xC3]` — a fatal read error with the position advanced — while the
plain consuming `read-char` at the same position correctly decodes code
point `0xE9` consuming both bytes. -/
theorem c8_peek_char_consumes_at_multibyte :
    (∀ p : InPort, (do_read_one true true p).2 = p)
    ∧ do_read_one false true ⟨[0x61, 0x62], 0⟩ = (.val (.charR 0x61), ⟨[0x61, 0x62], 0⟩)
    ∧ do_read_one true true ⟨[0xC3, 0xA9], 0⟩ = (.val (.byteR 0xC3), ⟨[0xC3, 0xA9], 0⟩)
    ∧ do_read_one false false ⟨[0xC3, 0xA9], 0⟩ = (.val (.charR 0xE9), ⟨[0xC3, 0xA9], 2⟩)
    ∧ do_read_one false true ⟨[0xC3, 0xA9], 0⟩ = (.fatal, ⟨[0xC3, 0xA9], 1⟩)
    ∧ port_tell (do_read_one false true ⟨[0xC3, 0xA9], 0⟩).2 ≠
        port_tell (⟨[0xC3, 0xA9], 0⟩ : InPort) := by
  refine ⟨?_, by decide, by decide, by decide, by decide, by decide⟩
  intro p
  rcases hq : port_peek p with _ | ⟨b, t⟩ <;> simp [do_read_one, hq]

/-- C6: on a Dot token, `read_list` reads exactly one more datum as the
improper tail and then requires the very next token to be a closing
delimiter, raising `read: illegal use of` dot otherwise; hence `(1 . 2)`
is the pair of 1 and 2, `(1 2 . 3)` the two-element chain ending in 3,
and `(1 2 3)` the proper three-element list ended by the empty list. -/
theorem c6_dot_tail_parsing :
    read_stream 20 "(1 . 2)".toList = .ok (.cons (.fixnum 1) (.fixnum 2), [])
    ∧ read_stream 20 "(1 2 . 3)".toList =
        .ok (.cons (.fixnum 1) (.cons (.fixnum 2) (.fixnum 3)), [])
    ∧ read_stream 20 "(1 2 3)".toList =
        .ok (.cons (.fixnum 1) (.cons (.fixnum 2) (.cons (.fixnum 3) .wnull)), [])
    ∧ read_stream 20 "(1 . 2 3)".toList = .error (.schemeErr "read: illegal use of `.`")
    ∧ (∀ fuel s rest ds so_far endStr, read_token fuel s = .ok (.dot ds, rest) →
        read_list (fuel + 1) s so_far endStr =
          (match read_stream fuel rest with
           | .error e => .error e
           | .ok (last, s1) =>
             (match read_token fuel s1 with
              | .error e => .error e
              | .ok (.rparen cs, s2) =>
                if check_matches endStr cs then .ok (wreverse so_far last, s2)
                else .error .assertFail
              | .ok _ => .error (.schemeErr "read: illegal use of `.`")))) := by
  refine ⟨rfl, rfl, rfl, rfl, ?_⟩
  intro fuel s rest ds so_far endStr h
  simp only [read_list, h]

/-- Witness for C6's hypothesis: continuing the list `(1` on the stream
`. 2)`, whose next token is the Dot. -/
theorem c6_dot_tail_parsing_witness :
    read_list 11 (". 2)".toList) (W.cons (.fixnum 1) .wnull) "(" =
      (match read_stream 10 (" 2)".toList) with
       | .error e => .error e
       | .ok (last, s1) =>
         (match read_token 10 s1 with
          | .error e => .error e
          | .ok (.rparen cs, s2) =>
            if check_matches "(" cs then .ok (wreverse (W.cons (.fixnum 1) .wnull) last, s2)
            else .error .assertFail
          | .ok _ => .error (.schemeErr "read: illegal use of `.`"))) :=
  c6_dot_tail_parsing.2.2.2.2 10 (". 2)".toList) (" 2)".toList) "."
    (W.cons (.fixnum 1) .wnull) "(" (by rfl)

/-- C5 counterexample: the claim says that when a value-consuming directive
finds the values exhausted, each of the format-rendering operations fails
with a catchable, propagating format error. But `format` (used by `format`
and `fprintf`) indexes `v[vindex]` unchecked, raising a host-level
`IndexError` rather than a `SchemeException`; and `printf`'s own scanner
does not treat `~%` as a newline at all but raises
`unexpected format character`. -/
theorem c5_format_exhaustion_is_index_error :
    format_scan ['~', 'a'] [] = .error .indexError
    ∧ printf_loop ['~', '%'] [] = .error (.schemeErr "unexpected format character") := by
  exact ⟨rfl, rfl⟩

/-- C5 (amended): in `format`/`fprintf` each of `~a ~A ~s ~S ~v ~V ~e ~E`
consumes the next unconsumed value in order and `~n`/`~%` insert a newline
consuming none, but exhausted values raise a host-level `IndexError`, not a
catchable format error; in `printf` the value directives consume in order,
exhaustion raises the catchable `not enough arguments for format string`,
`~n` inserts a newline, and `~%` is rejected with
`unexpected format character`. -/
theorem c5_amended_directive_behavior :
    (∀ c rest v vs, c ∈ fmtValChars →
      format_scan ('~' :: c :: rest) (v :: vs) =
        (match format_scan rest vs with
         | .ok out => .ok ((tostring v).toList ++ out)
         | .error e => .error e))
    ∧ (∀ c rest vs, c = 'n' ∨ c = '%' →
      format_scan ('~' :: c :: rest) vs =
        (match format_scan rest vs with
         | .ok out => .ok ('\n' :: out)
         | .error e => .error e))
    ∧ (∀ c rest, c ∈ fmtValChars → format_scan ('~' :: c :: rest) [] = .error .indexError)
    ∧ (∀ c rest v vs, c ∈ printfValChars →
      printf_loop ('~' :: c :: rest) (v :: vs) =
        (match printf_loop rest vs with
         | .ok out => .ok ((tostring v).toList ++ out)
         | .error e => .error e))
    ∧ (∀ c rest, c ∈ printfValChars →
      printf_loop ('~' :: c :: rest) [] =
        .error (.schemeErr "not enough arguments for format string"))
    ∧ (∀ rest vs, printf_loop ('~' :: 'n' :: rest) vs =
        (match printf_loop rest vs with
         | .ok out => .ok ('\n' :: out)
         | .error e => .error e))
    ∧ (∀ rest vs, printf_loop ('~' :: '%' :: rest) vs =
        .error (.schemeErr "unexpected format character"))
    ∧ (∀ v1 v2, format_scan ("~a and ~a~n".toList) [v1, v2] =
        .ok ((tostring v1).toList ++
          (' ' :: 'a' :: 'n' :: 'd' :: ' ' :: ((tostring v2).toList ++ ['\n'])))) := by
  refine ⟨?_, ?_, ?_, ?_, ?_, ?_, ?_, fun v1 v2 => rfl⟩
  · intro c rest v vs hc
    fin_cases hc <;> rfl
  · intro c rest vs hc
    rcases hc with rfl | rfl <;> rfl
  · intro c rest hc
    fin_cases hc <;> rfl
  · intro c rest v vs hc
    fin_cases hc <;> rfl
  · intro c rest hc
    fin_cases hc <;> rfl
  · intro rest vs; rfl
  · intro rest vs; rfl

/-- Witness for C5's amended hypotheses: the directive `~a` with the value
list `[1]` consumes the fixnum 1. -/
theorem c5_amended_directive_behavior_witness :
    format_scan ['~', 'a'] [W.fixnum 1] =
      (match format_scan [] [] with
       | .ok out => .ok ((tostring (W.fixnum 1)).toList ++ out)
       | .error e => .error e) :=
  c5_amended_directive_behavior.1 'a' [] (W.fixnum 1) [] (by decide)
